import Mathlib

/-!
Verification of the search page of the Donations project.

The development below is a shallow embedding of src/src/pages/Search.tsx:
the view state held by the component, the remote request built by the
debounced search function, the debounce scheduling, the application of a
completed response to view state, the suggestion fetcher, the filter
checkbox handlers, and the pagination arithmetic. Each definition is
annotated with the source lines it embeds.
-/

/-- Lister summary joined onto each result row (Search.tsx lines 30-33). -/
structure UserSummary where
  full_name : String
  avatar_url : String
deriving DecidableEq

/-- A search result row (Search.tsx lines 20-34). -/
structure SearchResult where
  id : String
  title : String
  description : String
  photos : List String
  category : String
  condition : String
  tags : List String
  created_at : String
  location : String
  user : UserSummary
deriving DecidableEq

/-- Sort options (Search.tsx line 37). The fetch path never reads this. -/
inductive SortOption where
  | newest
  | oldest
  | relevance
deriving DecidableEq

/-- Page size constant (Search.tsx line 39). -/
def ITEMS_PER_PAGE : Nat := 12

/-- The view state of the Search component: one field per useState hook
(Search.tsx lines 43-55). `query` is the `q` search param read at line 132. -/
structure SearchState where
  results : List SearchResult
  loading : Bool
  suggestions : List String
  totalResults : Nat
  page : Nat
  query : String
  selectedCategories : List String
  selectedConditions : List String
  sortBy : SortOption
  priceRange : Nat × Nat
deriving DecidableEq

/-- The remote search request built inside debouncedSearch
(Search.tsx lines 83-94): table, full-text column and query, ordering,
inclusive row range, and exact-count flag. -/
structure SearchRequest where
  table : String
  textColumn : String
  textQuery : String
  orderColumn : String
  orderAscending : Bool
  rangeStart : Nat
  rangeEnd : Nat
  countExact : Bool
deriving DecidableEq

/-- Builds the remote request exactly as Search.tsx lines 83-94 do: the
only state read is the query text and the page; categories, conditions,
price range and sort mode never reach the request. -/
def buildSearchRequest (st : SearchState) : SearchRequest :=
  { table := "announcements"
    textColumn := "title"
    textQuery := st.query
    orderColumn := "created_at"
    orderAscending := false
    rangeStart := (st.page - 1) * ITEMS_PER_PAGE
    rangeEnd := st.page * ITEMS_PER_PAGE - 1
    countExact := true }

/-- Response of the remote store to a search request: `data` and `count`
may be absent (the code coalesces them at lines 98-99), `error` mirrors
the error field destructured at line 83. -/
structure StoreResponse where
  data : Option (List SearchResult)
  count : Option Nat
  error : Bool
deriving DecidableEq

/-- The synchronous prefix of the debounced search body at fire time
(Search.tsx lines 78-81 and 83-94): an empty query returns at once with
no request and the state untouched (line 79, the falsiness test on the
string); otherwise loading is set and the request is dispatched. -/
def debouncedSearchFire (st : SearchState) : Option SearchRequest × SearchState :=
  if st.query = "" then (none, st)
  else (some (buildSearchRequest st), { st with loading := true })

/-- Applying a completed search response (Search.tsx lines 96-104): an
error is thrown, caught by the surrounding catch (only a console log),
and the finally clause clears loading; a success stores `data` (or [])
and `count` (or 0). The function is total: no fault escapes. -/
def applySearchCompletion (st : SearchState) (resp : StoreResponse) : SearchState :=
  if resp.error then { st with loading := false }
  else { st with
          results := resp.data.getD []
          totalResults := resp.count.getD 0
          loading := false }

/-- A scheduled invocation of the debounced search: the time at which it
will fire and the query argument it was called with. -/
structure PendingCall where
  fireAt : Nat
  arg : String
deriving DecidableEq

/-- Semantics of the lodash debounce wrapper built at Search.tsx lines
77-107 with wait 300: every call discards any pending invocation and
schedules the body to run at now + wait. The body never runs at call
time. -/
def debounceCall (wait : Nat) (now : Nat) (arg : String)
    (_pending : Option PendingCall) : Option PendingCall :=
  some { fireAt := now + wait, arg := arg }

/-- The effect at Search.tsx lines 131-134: it re-runs whenever the page
(or the query params) change and calls the debounced wrapper with the
current query — so a page change goes through the same 300 ms debounce. -/
def pageChangeEffect (now : Nat) (q : String)
    (pending : Option PendingCall) : Option PendingCall :=
  debounceCall 300 now q pending

/-- The remote suggestion request built at Search.tsx lines 117-121:
select title, full-text match on title, limit 5. -/
structure SuggestionRequest where
  table : String
  textColumn : String
  textQuery : String
  rowLimit : Nat
deriving DecidableEq

/-- Builds the suggestion request of Search.tsx lines 117-121. -/
def buildSuggestionRequest (q : String) : SuggestionRequest :=
  { table := "announcements"
    textColumn := "title"
    textQuery := q
    rowLimit := 5 }

/-- A row of the suggestion response: only the title column is selected
(Search.tsx line 119). -/
structure TitleRow where
  title : String
deriving DecidableEq

/-- Response of the remote store to a suggestion request. -/
structure SuggestionResponse where
  data : Option (List TitleRow)
  error : Bool
deriving DecidableEq

/-- The synchronous prefix of loadSuggestions (Search.tsx lines 110-121):
a falsy or shorter-than-2 query clears the suggestions and issues no
request (lines 111-114); otherwise the request goes out immediately —
this path has no debounce wrapper around it. -/
def loadSuggestionsStart (st : SearchState) (q : String) :
    Option SuggestionRequest × SearchState :=
  if q = "" ∨ q.length < 2 then (none, { st with suggestions := [] })
  else (some (buildSuggestionRequest q), st)

/-- Applying a completed suggestion response (Search.tsx lines 123-128):
an error is caught and logged, leaving the suggestions as they were; a
success stores the mapped titles (or [] when data is absent). -/
def applySuggestionsCompletion (st : SearchState) (resp : SuggestionResponse) :
    SearchState :=
  if resp.error then st
  else { st with
          suggestions := (resp.data.map (fun rows => rows.map (fun r => r.title))).getD [] }

/-- The remote store answering a suggestion request, per the collaborator
contract of spec section 6: full-text search over the title column (the
matching relation `m` is the store side and is left abstract), restricted
to `rowLimit` rows, each row carrying the selected title column. -/
def serveSuggestion (store : List SearchResult) (m : String → String → Bool)
    (req : SuggestionRequest) : SuggestionResponse :=
  { data := some (((store.filter (fun row => m req.textQuery row.title)).take req.rowLimit).map
      (fun row => { title := row.title }))
    error := false }

/-- handleSearch (Search.tsx lines 136-139): every query change through
the search path writes the new query into the URL params and resets the
page to 1. -/
def handleSearch (st : SearchState) (q : String) : SearchState :=
  { st with query := q, page := 1 }

/-- Clicking a suggestion (Search.tsx lines 170-173): handleSearch on the
suggestion text, then the suggestion list is cleared. -/
def suggestionSelect (st : SearchState) (suggestion : String) : SearchState :=
  { handleSearch st suggestion with suggestions := [] }

/-- Typing in the search box (Search.tsx lines 159-162): handleSearch on
the typed value, then loadSuggestions on the same value. -/
def searchInputChange (st : SearchState) (value : String) :
    Option SuggestionRequest × SearchState :=
  loadSuggestionsStart (handleSearch st value) value

/-- The category checkbox onChange handler (Search.tsx lines 236-243):
checking appends the value, unchecking filters out every occurrence. -/
def categoryCheckboxChange (selected : List String) (category : String)
    (checked : Bool) : List String :=
  if checked then selected ++ [category]
  else selected.filter (fun c => c ≠ category)

/-- The condition checkbox onChange handler (Search.tsx lines 261-268);
same shape as the category handler. -/
def conditionCheckboxChange (selected : List String) (condition : String)
    (checked : Bool) : List String :=
  if checked then selected ++ [condition]
  else selected.filter (fun c => c ≠ condition)

/-- One user click on a category checkbox: the box shows
selectedCategories.includes(category) (Search.tsx line 235), so a click
delivers the negation of the current membership as `checked`. -/
def categoryToggle (selected : List String) (category : String) : List String :=
  if category ∈ selected then categoryCheckboxChange selected category false
  else categoryCheckboxChange selected category true

/-- One user click on a condition checkbox (Search.tsx line 260). -/
def conditionToggle (selected : List String) (condition : String) : List String :=
  if condition ∈ selected then conditionCheckboxChange selected condition false
  else conditionCheckboxChange selected condition true

/-- Pagination is rendered only when totalResults > ITEMS_PER_PAGE
(Search.tsx line 434). -/
def showPagination (totalResults : Nat) : Bool :=
  ITEMS_PER_PAGE < totalResults

/-- The page count displayed and used by the Next button, Math.ceil of
totalResults / ITEMS_PER_PAGE (Search.tsx lines 445 and 449), as the
ceiling of the division over the naturals. -/
def pageCount (totalResults : Nat) : Nat :=
  (totalResults + ITEMS_PER_PAGE - 1) / ITEMS_PER_PAGE

/-- The disabled predicate of the Previous button (Search.tsx line 439). -/
def prevDisabled (page : Nat) : Bool :=
  page == 1

/-- The disabled predicate of the Next button (Search.tsx line 449). -/
def nextDisabled (page totalResults : Nat) : Bool :=
  pageCount totalResults ≤ page

/-- Events of the single-threaded interleaving semantics of the search
flow: a page change, the firing of a (debounced) search dispatch, and the
arrival of the response to a previously dispatched fetch. -/
inductive SearchEvent where
  | setPage (p : Nat)
  | dispatch
  | complete (id : Nat) (resp : StoreResponse)
deriving DecidableEq

/-- The component state together with the in-flight fetches. Dispatched
requests are tagged with consecutive identifiers purely so that a trace
can name which fetch a completion answers; the code itself keeps no such
token. -/
structure AppState where
  view : SearchState
  nextId : Nat
  inflight : List (Nat × SearchRequest)
deriving DecidableEq

/-- One step of the interleaving semantics. A dispatch runs the
synchronous prefix of the debounced search body (Search.tsx lines 78-94).
A completion runs the continuation at lines 96-104 — unconditionally: the
code compares no request token, so every response that arrives is applied
to view state, stale or not. -/
def stepEvent (s : AppState) (e : SearchEvent) : AppState :=
  match e with
  | .setPage p => { s with view := { s.view with page := p } }
  | .dispatch =>
      match debouncedSearchFire s.view with
      | (none, v) => { s with view := v }
      | (some req, v) =>
          { view := v, nextId := s.nextId + 1
            inflight := s.inflight ++ [(s.nextId, req)] }
  | .complete id resp =>
      if s.inflight.any (fun p => p.1 == id) then
        { s with
            inflight := s.inflight.filter (fun p => p.1 ≠ id)
            view := applySearchCompletion s.view resp }
      else s

/-- Runs a trace of events from an initial application state. -/
def runEvents (s : AppState) (es : List SearchEvent) : AppState :=
  es.foldl stepEvent s

/-- A concrete lister summary used in concrete evaluations. -/
def sampleUser : UserSummary :=
  { full_name := "u", avatar_url := "" }

/-- A concrete result row. -/
def rowA : SearchResult :=
  { id := "a", title := "ta", description := "", photos := [],
    category := "Other", condition := "GOOD", tags := [],
    created_at := "", location := "", user := sampleUser }

/-- A second concrete result row, distinct from rowA. -/
def rowB : SearchResult :=
  { rowA with id := "b", title := "tb" }

/-- The response of the first (stale) fetch: it returns rowA. -/
def respA : StoreResponse :=
  { data := some [rowA], count := some 13, error := false }

/-- The response of the second (fresh) fetch: it returns rowB. -/
def respB : StoreResponse :=
  { data := some [rowB], count := some 13, error := false }

/-- A concrete view state with a non-empty query on page 1. -/
def sampleState : SearchState :=
  { results := [], loading := false, suggestions := [], totalResults := 0,
    page := 1, query := "lamp", selectedCategories := [],
    selectedConditions := [], sortBy := .newest, priceRange := (0, 1000) }

/-- The application state at the start of the stale-response trace. -/
def initApp : AppState :=
  { view := sampleState, nextId := 0, inflight := [] }

/-- The race trace: fetch 0 is dispatched on page 1, the page changes to
2 and fetch 1 is dispatched, fetch 1 completes first with rowB, then the
stale fetch 0 completes with rowA. -/
def staleTrace : List SearchEvent :=
  [.dispatch, .setPage 2, .dispatch, .complete 1 respB, .complete 0 respA]

/-- A failing store response: the error field is set; data and count are
absent. -/
def errorResp : StoreResponse :=
  { data := none, count := none, error := true }

/-- A view state identical to sampleState except for an empty query. -/
def emptyQueryState : SearchState :=
  { sampleState with query := "" }

/-- A view state identical to sampleState except that categories,
conditions, price range and sort mode are all different. -/
def filteredState : SearchState :=
  { sampleState with
      selectedCategories := ["Books"]
      selectedConditions := ["GOOD"]
      priceRange := (5, 50)
      sortBy := .oldest }

lemma pageCount_eq_ceil (total : Nat) :
    (pageCount total : ℤ) = ⌈(total : ℚ) / 12⌉ := by
  have hd := Nat.div_add_mod (total + 11) 12
  have hm : (total + 11) % 12 < 12 := Nat.mod_lt _ (by norm_num)
  have h1 : total ≤ 12 * pageCount total := by
    unfold pageCount ITEMS_PER_PAGE
    omega
  have h2 : 12 * pageCount total < total + 12 := by
    unfold pageCount ITEMS_PER_PAGE
    omega
  have h1q : (total : ℚ) ≤ 12 * (pageCount total : ℚ) := by exact_mod_cast h1
  have h2q : 12 * (pageCount total : ℚ) < (total : ℚ) + 12 := by exact_mod_cast h2
  refine le_antisymm ?_ (Int.ceil_le.mpr ?_)
  · have h3 : (pageCount total : ℤ) - 1 < ⌈(total : ℚ) / 12⌉ := by
      rw [Int.lt_ceil, lt_div_iff₀ (by norm_num : (0 : ℚ) < 12)]
      push_cast
      linarith
    omega
  · rw [div_le_iff₀ (by norm_num : (0 : ℚ) < 12)]
    push_cast
    linarith

lemma categoryToggle_twice_mem (s : List String) (v x : String) :
    x ∈ categoryToggle (categoryToggle s v) v ↔ x ∈ s := by
  by_cases h : v ∈ s
  · have e1 : categoryToggle s v = s.filter (fun c => c ≠ v) := by
      simp [categoryToggle, categoryCheckboxChange, h]
    have hv : v ∉ s.filter (fun c => c ≠ v) := by simp [List.mem_filter]
    have e2 : categoryToggle (s.filter (fun c => c ≠ v)) v
        = s.filter (fun c => c ≠ v) ++ [v] := by
      simp [categoryToggle, categoryCheckboxChange, hv]
    rw [e1, e2]
    simp only [List.mem_append, List.mem_filter, List.mem_singleton, decide_eq_true_eq]
    constructor
    · rintro (⟨hx, -⟩ | rfl)
      · exact hx
      · exact h
    · intro hx
      by_cases hxv : x = v
      · exact Or.inr hxv
      · exact Or.inl ⟨hx, by simpa using hxv⟩
  · have e1 : categoryToggle s v = s ++ [v] := by
      simp [categoryToggle, categoryCheckboxChange, h]
    have hv : v ∈ s ++ [v] := by simp
    have e2 : categoryToggle (s ++ [v]) v = (s ++ [v]).filter (fun c => c ≠ v) := by
      simp [categoryToggle, categoryCheckboxChange, hv]
    rw [e1, e2]
    simp only [List.mem_filter, List.mem_append, List.mem_singleton, decide_eq_true_eq]
    constructor
    · rintro ⟨hx | rfl, hne⟩
      · exact hx
      · exact (hne rfl).elim
    · intro hx
      refine ⟨Or.inl hx, ?_⟩
      rintro rfl
      exact h hx

lemma conditionToggle_eq_categoryToggle :
    conditionToggle = categoryToggle := by
  funext s v
  simp [conditionToggle, categoryToggle, conditionCheckboxChange, categoryCheckboxChange]

/-- Claim C1. The spec requires that with fetches A then B in flight, the
ResultPage finally applied is the one of B even when the response of A
arrives later. The code keeps no request token and applies every arriving
response (Search.tsx lines 96-104), so on the trace dispatch A, page
change, dispatch B, complete B, complete A, the final displayed results
are the rows of A — the stale response wins, contradicting the spec. -/
theorem stale_response_overwrites_displayed_results :
    (runEvents initApp staleTrace).view.results = [rowA]
    ∧ (runEvents initApp staleTrace).view.results ≠ [rowB]
    ∧ respA.data = some [rowA] ∧ respB.data = some [rowB] ∧ rowA ≠ rowB := by
  decide

/-- Claim C2. Two view states that agree on the query text and the page
produce identical remote search requests, whatever their categories,
conditions, price range and sort mode: the request built at Search.tsx
lines 83-94 reads no other state. -/
theorem searchRequest_reads_only_query_and_page (s1 s2 : SearchState)
    (hq : s1.query = s2.query) (hp : s1.page = s2.page) :
    buildSearchRequest s1 = buildSearchRequest s2 := by
  simp [buildSearchRequest, hq, hp]

/-- Witness for C2: two concrete states differing in all four filter
dimensions yield the same request. -/
theorem searchRequest_reads_only_query_and_page_witness :
    sampleState.query = filteredState.query
    ∧ sampleState.page = filteredState.page
    ∧ sampleState.selectedCategories ≠ filteredState.selectedCategories
    ∧ sampleState.selectedConditions ≠ filteredState.selectedConditions
    ∧ sampleState.priceRange ≠ filteredState.priceRange
    ∧ sampleState.sortBy ≠ filteredState.sortBy
    ∧ buildSearchRequest sampleState = buildSearchRequest filteredState :=
  ⟨rfl, rfl, by decide, by decide, by decide, by decide,
    searchRequest_reads_only_query_and_page sampleState filteredState rfl rfl⟩

/-- Claim C3. An empty query makes the debounced search body return at
once (Search.tsx line 79): no request is issued and the state — in
particular the displayed results and total count — is exactly unchanged. -/
theorem empty_query_skips_fetch (st : SearchState) (h : st.query = "") :
    debouncedSearchFire st = (none, st) := by
  simp [debouncedSearchFire, h]

/-- Witness for C3 at a concrete state with an empty query. -/
theorem empty_query_skips_fetch_witness :
    emptyQueryState.query = ""
    ∧ debouncedSearchFire emptyQueryState = (none, emptyQueryState) :=
  ⟨rfl, empty_query_skips_fetch emptyQueryState rfl⟩

/-- Claim C4. A failing search fetch is caught at the call site
(Search.tsx lines 100-104): applying a response whose error field is set
only clears loading, leaving results and total count untouched; the
application function is total, so no fault propagates. -/
theorem failed_search_fetch_preserved (st : SearchState) (resp : StoreResponse)
    (h : resp.error = true) :
    applySearchCompletion st resp = { st with loading := false }
    ∧ (applySearchCompletion st resp).results = st.results
    ∧ (applySearchCompletion st resp).totalResults = st.totalResults
    ∧ (applySearchCompletion st resp).loading = false := by
  simp [applySearchCompletion, h]

/-- Witness for C4 at a concrete failing response. -/
theorem failed_search_fetch_preserved_witness :
    errorResp.error = true
    ∧ (applySearchCompletion sampleState errorResp = { sampleState with loading := false }
      ∧ (applySearchCompletion sampleState errorResp).results = sampleState.results
      ∧ (applySearchCompletion sampleState errorResp).totalResults = sampleState.totalResults
      ∧ (applySearchCompletion sampleState errorResp).loading = false) :=
  ⟨rfl, failed_search_fetch_preserved sampleState errorResp rfl⟩

/-- Counterexample for C5. The claim asserts a displayed page count of 1
when the total is 0, but the code computes Math.ceil(0 / 12) = 0 with no
minimum-1 clamp (and with a total of 0 the pagination block is not
rendered at all, Search.tsx line 434). -/
theorem pageCount_zero_counterexample :
    pageCount 0 = 0 ∧ pageCount 0 ≠ 1 ∧ showPagination 0 = false := by
  decide

/-- Amended C5. The page count equals ceil(total / 12) exactly, with no
minimum-1 clamp — it is 0 when total is 0 — so for totals 0, 1, 12, 13,
24, 25 the counts are 0, 1, 1, 2, 2, 3; the pagination controls are
rendered only when total exceeds 12. -/
theorem pageCount_ceil_values :
    (∀ total : Nat, (pageCount total : ℤ) = ⌈(total : ℚ) / 12⌉)
    ∧ pageCount 0 = 0 ∧ pageCount 1 = 1 ∧ pageCount 12 = 1
    ∧ pageCount 13 = 2 ∧ pageCount 24 = 2 ∧ pageCount 25 = 3
    ∧ (∀ total : Nat, showPagination total = true ↔ 12 < total) := by
  refine ⟨pageCount_eq_ceil, by decide, by decide, by decide, by decide,
    by decide, by decide, ?_⟩
  intro total
  simp [showPagination, ITEMS_PER_PAGE]

/-- Counterexample for C6. The claim asserts that a page change fires the
fetch at once, but the page-change effect (Search.tsx lines 131-134) goes
through the 300 ms debounce wrapper: a page change at time 0 schedules
the fetch for time 300, not time 0. -/
theorem page_change_fetch_delayed :
    (pageChangeEffect 0 ("lamp") none).map PendingCall.fireAt = some 300
    ∧ (pageChangeEffect 0 ("lamp") none).map PendingCall.fireAt ≠ some 0 := by
  decide

/-- Amended C6. Changing the page re-triggers the debounced search, whose
body fires only after the 300 ms quiescence window (not immediately), and
for a non-empty query the dispatched fetch requests the inclusive row
range from (page - 1) * 12 to page * 12 - 1. -/
theorem page_change_debounced_fetch_range (now : Nat) (q : String)
    (pending : Option PendingCall) (st : SearchState) (h : st.query ≠ "") :
    pageChangeEffect now q pending = some { fireAt := now + 300, arg := q }
    ∧ (debouncedSearchFire st).1 = some (buildSearchRequest st)
    ∧ (buildSearchRequest st).rangeStart = (st.page - 1) * 12
    ∧ (buildSearchRequest st).rangeEnd = st.page * 12 - 1 := by
  refine ⟨rfl, ?_, rfl, rfl⟩
  simp [debouncedSearchFire, h]

/-- Witness for the amended C6 at a concrete page change and state. -/
theorem page_change_debounced_fetch_range_witness :
    sampleState.query ≠ ""
    ∧ (pageChangeEffect 0 ("lamp") none = some { fireAt := 0 + 300, arg := "lamp" }
      ∧ (debouncedSearchFire sampleState).1 = some (buildSearchRequest sampleState)
      ∧ (buildSearchRequest sampleState).rangeStart = (sampleState.page - 1) * 12
      ∧ (buildSearchRequest sampleState).rangeEnd = sampleState.page * 12 - 1) :=
  ⟨by decide, page_change_debounced_fetch_range 0 ("lamp") none sampleState (by decide)⟩

/-- Claim C7. A query of length at least 2 makes loadSuggestions issue
exactly one immediate request (no debounce wrapper on this path) whose
store answer, restricted to 5 rows, yields at most 5 title strings; a
query of length below 2 clears the suggestions synchronously and issues
no request (Search.tsx lines 110-129). -/
theorem suggestion_fetch_contract (st : SearchState) (q : String)
    (store : List SearchResult) (m : String → String → Bool) :
    (q.length < 2 → loadSuggestionsStart st q = (none, { st with suggestions := [] }))
    ∧ (2 ≤ q.length →
        loadSuggestionsStart st q = (some (buildSuggestionRequest q), st)
        ∧ (applySuggestionsCompletion st
            (serveSuggestion store m (buildSuggestionRequest q))).suggestions.length ≤ 5) := by
  constructor
  · intro h
    unfold loadSuggestionsStart
    rw [if_pos (Or.inr h)]
  · intro h
    have hne : ¬(q = "" ∨ q.length < 2) := by
      rintro (rfl | hlt)
      · exact absurd h (by decide)
      · omega
    refine ⟨by unfold loadSuggestionsStart; rw [if_neg hne], ?_⟩
    unfold applySuggestionsCompletion serveSuggestion buildSuggestionRequest
    simp [List.length_take]

/-- Witness for C7: the two-character query issues the request and any
store answer yields at most 5 suggestions; the one-character query clears
the suggestions with no request. -/
theorem suggestion_fetch_contract_witness :
    (2 ≤ ("bo" : String).length
      ∧ (loadSuggestionsStart sampleState ("bo")
            = (some (buildSuggestionRequest ("bo")), sampleState)
        ∧ (applySuggestionsCompletion sampleState
            (serveSuggestion [] (fun a b => true)
              (buildSuggestionRequest ("bo")))).suggestions.length ≤ 5))
    ∧ (("b" : String).length < 2
      ∧ loadSuggestionsStart sampleState ("b")
          = (none, { sampleState with suggestions := [] })) :=
  ⟨⟨by decide, (suggestion_fetch_contract sampleState ("bo") [] (fun a b => true)).2 (by decide)⟩,
    ⟨by decide, (suggestion_fetch_contract sampleState ("b") [] (fun a b => true)).1 (by decide)⟩⟩

/-- Claim C8. Clicking the same category (or condition) checkbox twice —
on then off, or off then on — returns the selected-filter set to its
original value: membership in the selection is restored for every value,
whatever list the selection currently holds. -/
theorem filter_toggle_involutive (s : List String) (v x : String) :
    (x ∈ categoryToggle (categoryToggle s v) v ↔ x ∈ s)
    ∧ (x ∈ conditionToggle (conditionToggle s v) v ↔ x ∈ s) := by
  refine ⟨categoryToggle_twice_mem s v x, ?_⟩
  rw [conditionToggle_eq_categoryToggle]
  exact categoryToggle_twice_mem s v x

/-- Claim C9. When the pagination controls are rendered, the Previous
button is disabled exactly on page 1 and the Next button is disabled
exactly when the page reaches the page count, which is the ceiling of
total / 12 (Search.tsx lines 437-453). -/
theorem pagination_buttons_disabled_iff (page total : Nat)
    (h : showPagination total = true) :
    (prevDisabled page = true ↔ page = 1)
    ∧ (nextDisabled page total = true ↔ pageCount total ≤ page)
    ∧ (pageCount total : ℤ) = ⌈(total : ℚ) / 12⌉ := by
  refine ⟨?_, ?_, pageCount_eq_ceil total⟩
  · simp [prevDisabled]
  · simp [nextDisabled]

/-- Witness for C9 with 13 total results on page 2, the scenario of the
spec: the page count is 2, Next is disabled and Previous is enabled. -/
theorem pagination_buttons_disabled_iff_witness :
    showPagination 13 = true
    ∧ ((prevDisabled 2 = true ↔ 2 = 1)
      ∧ (nextDisabled 2 13 = true ↔ pageCount 13 ≤ 2)
      ∧ (pageCount 13 : ℤ) = ⌈((13 : Nat) : ℚ) / 12⌉) :=
  ⟨by decide, pagination_buttons_disabled_iff 2 13 (by decide)⟩

/-- Claim C10. Every query change through the search path resets the page
to 1: handleSearch (Search.tsx lines 136-139) writes the new query and
page 1, and both the input onChange path and the suggestion click path go
through it without touching the page again. -/
theorem query_change_resets_page (st : SearchState) (q : String) :
    (handleSearch st q).page = 1 ∧ (handleSearch st q).query = q
    ∧ (suggestionSelect st q).page = 1
    ∧ (suggestionSelect st q).suggestions = []
    ∧ ((searchInputChange st q).2).page = 1 := by
  refine ⟨rfl, rfl, rfl, rfl, ?_⟩
  unfold searchInputChange loadSuggestionsStart
  split <;> rfl
